import Mathlib

/-!
Verification of `create_issue_19_pr.py`: a script that opens a GitHub pull
request and optionally attaches labels, converting every failure of the
remote calls into a formatted error string.

The script's effectful collaborators (environment lookup and the PyGithub
client) are embedded as explicit parameters: an environment is a map from
variable names to optional values, and a client is a record of possibly
failing operations.  `create_pull_request` returns, besides the Python
function's string result, the trace of remote calls it issued and the
warning lines it printed, so that the call-shape properties of the spec can
be stated.
-/

/-- A process environment, as seen through `os.getenv`. -/
def PyEnv : Type := String → Option String

/-- Python truthiness of an optional string: `None` and `""` are falsy. -/
def pyTruthy : Option String → Bool
  | none => false
  | some s => !(s == "")

/-- Python `a or b` on optional strings: `a` if truthy, else `b`. -/
def pyOr (a b : Option String) : Option String :=
  if pyTruthy a then a else b

/-- The message of the `ValueError` raised when no token is found. -/
def tokenErrorMsg : String :=
  "PRODUCT_GITHUB_TOKEN or GITHUB_TOKEN not found in environment variables"

/-- `get_github_client`: `token = os.getenv("PRODUCT_GITHUB_TOKEN") or
os.getenv("GITHUB_TOKEN")`; if `not token` it raises a `ValueError`,
otherwise it returns `Github(token)`.  The constructed client is represented
by its token; a raised exception is an `Except.error` carrying `str(e)`. -/
def get_github_client (env : PyEnv) : Except String String :=
  let token := pyOr (env "PRODUCT_GITHUB_TOKEN") (env "GITHUB_TOKEN")
  if pyTruthy token then Except.ok (token.getD "")
  else Except.error tokenErrorMsg

/-- The data of a created pull request that the script reads back. -/
structure PRInfo where
  number : Nat
  html_url : String
deriving DecidableEq, Repr

/-- One remote API call issued by the script, with its arguments. -/
inductive ApiCall where
  | get_repo (repo_name : String)
  | create_pull (title body head base : String)
  | get_label (label_name : String)
  | add_to_labels (labels : List String)
deriving DecidableEq, Repr

/-- A behaviour of the GitHub client: each operation either succeeds with a
value or raises an exception whose message is the `String` of the error.
`get_label` returns the resolved label object, represented by a string. -/
structure Client where
  get_repo : String → Except String Unit
  create_pull : String → String → String → String → Except String PRInfo
  get_label : String → Except String String
  add_to_labels : List String → Except String Unit

/-- The result of one invocation of `create_pull_request`: the returned
string, the trace of remote calls issued, and the warning lines printed. -/
structure RunResult where
  output : String
  calls : List ApiCall
  warnings : List String
deriving DecidableEq, Repr

/-- The success string `f"Successfully created PR #{pr.number}: {pr.html_url}"`. -/
def successMsg (pr : PRInfo) : String :=
  "Successfully created PR #" ++ toString pr.number ++ ": " ++ pr.html_url

/-- The failure string `f"Error creating GitHub PR: {str(e)}"`. -/
def errorMsg (e : String) : String :=
  "Error creating GitHub PR: " ++ e

/-- The warning line `f"Warning: Could not find label '{label_name}': {e}"`. -/
def labelWarning (label_name e : String) : String :=
  "Warning: Could not find label \x27" ++ label_name ++ "\x27: " ++ e

/-- The label-resolution loop: for each name in order, `repo.get_label` is
called; a success appends the label object, a failure prints a warning.
Returns the resolved objects, the `get_label` calls, and the warnings. -/
def resolveLabels (c : Client) : List String → List String × List ApiCall × List String
  | [] => ([], [], [])
  | n :: rest =>
    match c.get_label n with
    | Except.ok l =>
      let r := resolveLabels c rest
      (l :: r.1, ApiCall.get_label n :: r.2.1, r.2.2)
    | Except.error e =>
      let r := resolveLabels c rest
      (r.1, ApiCall.get_label n :: r.2.1, labelWarning n e :: r.2.2)

/-- `create_pull_request(repo_name, title, body, head, base="staging",
labels=None)`.  The whole body runs inside `try ... except Exception as e:
return f"Error creating GitHub PR: {str(e)}"`; the per-label `get_label` has
its own inner handler that only prints a warning.  `if labels:` is Python
truthiness, so `None` and `[]` both skip the label block, and an empty list
of resolved objects skips the `add_to_labels` call. -/
def create_pull_request (env : PyEnv) (c : Client)
    (repo_name title body head : String)
    (base : String := "staging") (labels : Option (List String) := none) :
    RunResult :=
  match get_github_client env with
  | Except.error e => ⟨errorMsg e, [], []⟩
  | Except.ok _token =>
    match c.get_repo repo_name with
    | Except.error e => ⟨errorMsg e, [ApiCall.get_repo repo_name], []⟩
    | Except.ok _ =>
      let calls1 := [ApiCall.get_repo repo_name,
                     ApiCall.create_pull title body head base]
      match c.create_pull title body head base with
      | Except.error e => ⟨errorMsg e, calls1, []⟩
      | Except.ok pr =>
        let labelList := labels.getD []
        if labelList.isEmpty then ⟨successMsg pr, calls1, []⟩
        else
          let r := resolveLabels c labelList
          let calls2 := calls1 ++ r.2.1
          if r.1.isEmpty then ⟨successMsg pr, calls2, r.2.2⟩
          else
            match c.add_to_labels r.1 with
            | Except.error e =>
              ⟨errorMsg e, calls2 ++ [ApiCall.add_to_labels r.1], r.2.2⟩
            | Except.ok _ =>
              ⟨successMsg pr, calls2 ++ [ApiCall.add_to_labels r.1], r.2.2⟩

/-- Is this call a `create_pull` call? -/
def ApiCall.isCreatePull : ApiCall → Bool
  | ApiCall.create_pull _ _ _ _ => true
  | _ => false

/-- Is this call an `add_to_labels` call? -/
def ApiCall.isAddLabels : ApiCall → Bool
  | ApiCall.add_to_labels _ => true
  | _ => false

/-- Is this call a `get_label` call? -/
def ApiCall.isGetLabel : ApiCall → Bool
  | ApiCall.get_label _ => true
  | _ => false

/-- The `create_pull` calls of a trace, in order. -/
def createPullCalls (cs : List ApiCall) : List ApiCall :=
  cs.filter ApiCall.isCreatePull

/-- The `add_to_labels` calls of a trace, in order. -/
def addLabelCalls (cs : List ApiCall) : List ApiCall :=
  cs.filter ApiCall.isAddLabels

/-- The `get_label` calls of a trace, in order. -/
def getLabelCalls (cs : List ApiCall) : List ApiCall :=
  cs.filter ApiCall.isGetLabel

/-- The label objects the client reports as resolvable, in input order. -/
def resolvedLabels (c : Client) (names : List String) : List String :=
  names.filterMap fun n => (c.get_label n).toOption

/-- The warning lines for the unresolvable names, in input order. -/
def failedWarnings (c : Client) (names : List String) : List String :=
  names.filterMap fun n =>
    match c.get_label n with
    | Except.ok _ => none
    | Except.error e => some (labelWarning n e)

theorem resolveLabels_fst (c : Client) (l : List String) :
    (resolveLabels c l).1 = resolvedLabels c l := by
  induction l with
  | nil => rfl
  | cons n rest ih =>
    simp only [resolveLabels, resolvedLabels, List.filterMap_cons]
    cases h : c.get_label n with
    | ok v => simpa [Except.toOption, resolvedLabels] using ih
    | error e => simpa [Except.toOption, resolvedLabels] using ih

theorem resolveLabels_calls (c : Client) (l : List String) :
    (resolveLabels c l).2.1 = l.map ApiCall.get_label := by
  induction l with
  | nil => rfl
  | cons n rest ih =>
    simp only [resolveLabels, List.map_cons]
    cases h : c.get_label n with
    | ok v => simpa using ih
    | error e => simpa using ih

theorem resolveLabels_warnings (c : Client) (l : List String) :
    (resolveLabels c l).2.2 = failedWarnings c l := by
  induction l with
  | nil => rfl
  | cons n rest ih =>
    simp only [resolveLabels, failedWarnings, List.filterMap_cons]
    cases h : c.get_label n with
    | ok v => simpa [failedWarnings] using ih
    | error e => simpa [failedWarnings] using ih

/-- A concrete environment holding only `PRODUCT_GITHUB_TOKEN`. -/
def envWithToken : PyEnv := fun v =>
  if v == "PRODUCT_GITHUB_TOKEN" then some "tok" else none

/-- A client on which every remote call succeeds and every label resolves
to an object named like itself. -/
def okClient : Client where
  get_repo := fun _ => Except.ok ()
  create_pull := fun _ _ _ _ => Except.ok ⟨2, "https://example.com/pr/2"⟩
  get_label := fun n => Except.ok n
  add_to_labels := fun _ => Except.ok ()

/-- A client on which PR creation succeeds but no label name resolves. -/
def noLabelClient : Client where
  get_repo := fun _ => Except.ok ()
  create_pull := fun _ _ _ _ => Except.ok ⟨1, "https://example.com/pr/1"⟩
  get_label := fun _ => Except.error "not found"
  add_to_labels := fun _ => Except.ok ()

/-- The spec's section 8 example client: label `bug` resolves, label
`needs-review` does not, everything else succeeds. -/
def exampleClient : Client where
  get_repo := fun _ => Except.ok ()
  create_pull := fun _ _ _ _ => Except.ok ⟨5, "https://example.com/pr/5"⟩
  get_label := fun n => if n == "bug" then Except.ok "bug" else Except.error "Not Found"
  add_to_labels := fun _ => Except.ok ()

/-- When the credential, `get_repo` and `create_pull` all succeed, the whole
run is determined by the label list: this unfolds `create_pull_request` on
that path. -/
theorem create_pull_request_ok_unfold (env : PyEnv) (c : Client)
    (rn t b hd ba : String) (l : List String) (tok : String) (pr : PRInfo)
    (htok : get_github_client env = Except.ok tok)
    (hrepo : c.get_repo rn = Except.ok ())
    (hpr : c.create_pull t b hd ba = Except.ok pr) :
    create_pull_request env c rn t b hd ba (some l) =
      if l.isEmpty then
        ⟨successMsg pr, [ApiCall.get_repo rn, ApiCall.create_pull t b hd ba], []⟩
      else if (resolvedLabels c l).isEmpty then
        ⟨successMsg pr,
         [ApiCall.get_repo rn, ApiCall.create_pull t b hd ba] ++ l.map ApiCall.get_label,
         failedWarnings c l⟩
      else
        match c.add_to_labels (resolvedLabels c l) with
        | Except.error e =>
          ⟨errorMsg e,
           [ApiCall.get_repo rn, ApiCall.create_pull t b hd ba] ++ l.map ApiCall.get_label
             ++ [ApiCall.add_to_labels (resolvedLabels c l)],
           failedWarnings c l⟩
        | Except.ok _ =>
          ⟨successMsg pr,
           [ApiCall.get_repo rn, ApiCall.create_pull t b hd ba] ++ l.map ApiCall.get_label
             ++ [ApiCall.add_to_labels (resolvedLabels c l)],
           failedWarnings c l⟩ := by
  unfold create_pull_request
  rw [htok, hrepo, hpr]
  simp only [Option.getD_some]
  rw [show (resolveLabels c l).1 = resolvedLabels c l from resolveLabels_fst c l,
      show (resolveLabels c l).2.1 = l.map ApiCall.get_label from resolveLabels_calls c l,
      show (resolveLabels c l).2.2 = failedWarnings c l from resolveLabels_warnings c l]

theorem pyTruthy_none : pyTruthy none = false := rfl

theorem pyTruthy_some (s : String) : pyTruthy (some s) = !(s == "") := rfl

/-- The credential lookup failing short-circuits the whole function. -/
theorem create_pull_request_cred_error (env : PyEnv) (c : Client)
    (rn t b hd ba : String) (l : Option (List String)) (e : String)
    (hg : get_github_client env = Except.error e) :
    create_pull_request env c rn t b hd ba l = ⟨errorMsg e, [], []⟩ := by
  unfold create_pull_request
  rw [hg]

/-- A failing `get_repo` ends the run with its message. -/
theorem create_pull_request_repo_error (env : PyEnv) (c : Client)
    (rn t b hd ba : String) (l : Option (List String)) (tok e : String)
    (hg : get_github_client env = Except.ok tok)
    (hr : c.get_repo rn = Except.error e) :
    create_pull_request env c rn t b hd ba l =
      ⟨errorMsg e, [ApiCall.get_repo rn], []⟩ := by
  unfold create_pull_request
  rw [hg, hr]

/-- A failing `create_pull` ends the run with its message; the trace stops
at the `create_pull` call. -/
theorem create_pull_request_create_error (env : PyEnv) (c : Client)
    (rn t b hd ba : String) (l : Option (List String)) (tok e : String)
    (hg : get_github_client env = Except.ok tok)
    (hr : c.get_repo rn = Except.ok ())
    (hp : c.create_pull t b hd ba = Except.error e) :
    create_pull_request env c rn t b hd ba l =
      ⟨errorMsg e, [ApiCall.get_repo rn, ApiCall.create_pull t b hd ba], []⟩ := by
  unfold create_pull_request
  rw [hg, hr, hp]

/-- `labels=None` and `labels=[]` lead to the same run: only `labels.getD []`
is ever inspected. -/
theorem create_pull_request_labels_getD (env : PyEnv) (c : Client)
    (rn t b hd ba : String) (l : Option (List String)) :
    create_pull_request env c rn t b hd ba l =
      create_pull_request env c rn t b hd ba (some (l.getD [])) := by
  cases l <;> rfl

/-- C1: for every input and every behaviour of the client,
`create_pull_request` returns a string: either the success string, or the
formatted error string `"Error creating GitHub PR: <message>"` carrying the
message of the failing step (credential lookup, `get_repo`, `create_pull`,
or `add_to_labels`); it never raises past its own boundary. -/
theorem create_pull_request_never_raises (env : PyEnv) (c : Client)
    (rn t b hd ba : String) (l : Option (List String)) :
    (∃ pr, (create_pull_request env c rn t b hd ba l).output = successMsg pr) ∨
    (∃ e, (create_pull_request env c rn t b hd ba l).output = errorMsg e ∧
      (get_github_client env = Except.error e ∨
       c.get_repo rn = Except.error e ∨
       c.create_pull t b hd ba = Except.error e ∨
       c.add_to_labels (resolvedLabels c (l.getD [])) = Except.error e)) := by
  rw [create_pull_request_labels_getD]
  cases hg : get_github_client env with
  | error e =>
    rw [create_pull_request_cred_error env c rn t b hd ba _ e hg]
    exact Or.inr ⟨e, rfl, Or.inl rfl⟩
  | ok tok =>
    cases hr : c.get_repo rn with
    | error e =>
      rw [create_pull_request_repo_error env c rn t b hd ba _ tok e hg hr]
      exact Or.inr ⟨e, rfl, Or.inr (Or.inl rfl)⟩
    | ok u =>
      cases u
      cases hp : c.create_pull t b hd ba with
      | error e =>
        rw [create_pull_request_create_error env c rn t b hd ba _ tok e hg hr hp]
        exact Or.inr ⟨e, rfl, Or.inr (Or.inr (Or.inl rfl))⟩
      | ok pr =>
        rw [create_pull_request_ok_unfold env c rn t b hd ba (l.getD []) tok pr hg hr hp]
        by_cases hl : (l.getD []).isEmpty
        · exact Or.inl ⟨pr, by simp [hl]⟩
        · by_cases hres : (resolvedLabels c (l.getD [])).isEmpty
          · exact Or.inl ⟨pr, by simp [hl, hres]⟩
          · cases ha : c.add_to_labels (resolvedLabels c (l.getD [])) with
            | error e =>
              refine Or.inr ⟨e, by simp [hl, hres, ha],
                Or.inr (Or.inr (Or.inr rfl))⟩
            | ok u2 =>
              exact Or.inl ⟨pr, by simp [hl, hres, ha]⟩

/-- C4: if the `create_pull` call itself fails with message `e`, the result
is the error string carrying `e`, and no `get_label` and no `add_to_labels`
call is ever issued afterwards: the trace ends at the `create_pull` call. -/
theorem create_failure_no_label_calls (env : PyEnv) (c : Client)
    (rn t b hd ba : String) (l : Option (List String)) (tok e : String)
    (hg : get_github_client env = Except.ok tok)
    (hr : c.get_repo rn = Except.ok ())
    (hp : c.create_pull t b hd ba = Except.error e) :
    (create_pull_request env c rn t b hd ba l).output = errorMsg e ∧
    getLabelCalls (create_pull_request env c rn t b hd ba l).calls = [] ∧
    addLabelCalls (create_pull_request env c rn t b hd ba l).calls = [] := by
  rw [create_pull_request_create_error env c rn t b hd ba l tok e hg hr hp]
  refine ⟨rfl, ?_, ?_⟩ <;> rfl

/-- C4 witness: a concrete run whose `create_pull` rejects. -/
def rejectingClient : Client where
  get_repo := fun _ => Except.ok ()
  create_pull := fun _ _ _ _ => Except.error "Validation Failed"
  get_label := fun n => Except.ok n
  add_to_labels := fun _ => Except.ok ()

theorem create_failure_no_label_calls_witness :
    (create_pull_request envWithToken rejectingClient "o/r" "T" "B" "H" "S"
        (some ["bug"])).output = errorMsg "Validation Failed" ∧
    getLabelCalls (create_pull_request envWithToken rejectingClient "o/r" "T" "B" "H" "S"
        (some ["bug"])).calls = [] ∧
    addLabelCalls (create_pull_request envWithToken rejectingClient "o/r" "T" "B" "H" "S"
        (some ["bug"])).calls = [] :=
  create_failure_no_label_calls envWithToken rejectingClient "o/r" "T" "B" "H" "S"
    (some ["bug"]) "tok" "Validation Failed" rfl rfl rfl

/-- C5: the credential is `PRODUCT_GITHUB_TOKEN` when set and non-empty,
else `GITHUB_TOKEN` when set and non-empty (first non-empty wins); when
neither yields a non-empty value, `get_github_client` raises the
missing-credential error instead of constructing a client. -/
theorem get_github_client_token_precedence (env : PyEnv) :
    (∀ p, env "PRODUCT_GITHUB_TOKEN" = some p → p ≠ "" →
      get_github_client env = Except.ok p) ∧
    ((env "PRODUCT_GITHUB_TOKEN" = none ∨ env "PRODUCT_GITHUB_TOKEN" = some "") →
      ∀ g, env "GITHUB_TOKEN" = some g → g ≠ "" →
        get_github_client env = Except.ok g) ∧
    ((env "PRODUCT_GITHUB_TOKEN" = none ∨ env "PRODUCT_GITHUB_TOKEN" = some "") →
      (env "GITHUB_TOKEN" = none ∨ env "GITHUB_TOKEN" = some "") →
      get_github_client env = Except.error tokenErrorMsg) := by
  refine ⟨?_, ?_, ?_⟩
  · intro p hp hne
    simp [get_github_client, pyOr, pyTruthy, hp, hne]
  · rintro (h | h) g hg hne <;>
      simp [get_github_client, pyOr, pyTruthy, h, hg, hne]
  · rintro (h1 | h1) (h2 | h2) <;>
      simp [get_github_client, pyOr, pyTruthy, h1, h2]

theorem get_github_client_token_precedence_witness :
    get_github_client envWithToken = Except.ok "tok" :=
  (get_github_client_token_precedence envWithToken).1 "tok" rfl (by decide)

/-- C6: when neither environment variable yields a (non-empty) value, the
missing-credential error is produced before any client construction, and
`create_pull_request` issues no remote call at all: its trace is empty. -/
theorem missing_credential_no_network (env : PyEnv) (c : Client)
    (rn t b hd ba : String) (l : Option (List String))
    (hp : pyTruthy (env "PRODUCT_GITHUB_TOKEN") = false)
    (hg : pyTruthy (env "GITHUB_TOKEN") = false) :
    get_github_client env = Except.error tokenErrorMsg ∧
    create_pull_request env c rn t b hd ba l =
      ⟨errorMsg tokenErrorMsg, [], []⟩ := by
  have h1 : get_github_client env = Except.error tokenErrorMsg := by
    simp [get_github_client, pyOr, hp, hg]
  exact ⟨h1, create_pull_request_cred_error env c rn t b hd ba l tokenErrorMsg h1⟩

/-- An environment in which no variable is set. -/
def emptyEnv : PyEnv := fun _ => none

theorem missing_credential_no_network_witness :
    get_github_client emptyEnv = Except.error tokenErrorMsg ∧
    create_pull_request emptyEnv okClient "o/r" "T" "B" "H" "S" none =
      ⟨errorMsg tokenErrorMsg, [], []⟩ :=
  missing_credential_no_network emptyEnv okClient "o/r" "T" "B" "H" "S" none rfl rfl

/-- C10: omitting the `base` argument is the same call as passing
`base = "staging"`: the parameter's declared default. -/
theorem base_defaults_to_staging (env : PyEnv) (c : Client)
    (rn t b hd : String) :
    create_pull_request env c rn t b hd =
      create_pull_request env c rn t b hd "staging" none := rfl

theorem no_create_pull_in_get_label_calls (l : List String) :
    (l.map ApiCall.get_label).filter ApiCall.isCreatePull = [] := by
  simp [ApiCall.isCreatePull]

theorem no_add_in_get_label_calls (l : List String) :
    (l.map ApiCall.get_label).filter ApiCall.isAddLabels = [] := by
  simp [ApiCall.isAddLabels]

/-- C2 counterexample: with the non-empty labels list `["missing"]` and a
client on which every call succeeds except that no label name resolves, PR
creation succeeds but NO add-labels call at all is issued — not the
"exactly one batch add-labels call" the claim asserts for every non-empty
labels sequence. -/
theorem nonempty_labels_without_attach_call :
    (["missing"] : List String) ≠ [] ∧
    (create_pull_request envWithToken noLabelClient "o/r" "T" "B" "H" "S"
        (some ["missing"])).output = successMsg ⟨1, "https://example.com/pr/1"⟩ ∧
    addLabelCalls (create_pull_request envWithToken noLabelClient "o/r" "T" "B" "H" "S"
        (some ["missing"])).calls = [] := by
  refine ⟨by decide, rfl, rfl⟩

/-- C2 (amended): on the success path, exactly one `create_pull` call is
issued, carrying title, body, head and base unchanged; when the labels the
client reports as resolvable are non-empty, exactly one batch add-labels
call is issued containing exactly those labels; when no label resolves
(in particular when `labels` is empty), no add-labels call is issued. -/
theorem create_pull_request_call_shape (env : PyEnv) (c : Client)
    (rn t b hd ba : String) (l : List String) (tok : String) (pr : PRInfo)
    (hg : get_github_client env = Except.ok tok)
    (hr : c.get_repo rn = Except.ok ())
    (hp : c.create_pull t b hd ba = Except.ok pr) :
    createPullCalls (create_pull_request env c rn t b hd ba (some l)).calls
      = [ApiCall.create_pull t b hd ba] ∧
    (resolvedLabels c l ≠ [] →
      addLabelCalls (create_pull_request env c rn t b hd ba (some l)).calls
        = [ApiCall.add_to_labels (resolvedLabels c l)]) ∧
    (resolvedLabels c l = [] →
      addLabelCalls (create_pull_request env c rn t b hd ba (some l)).calls = []) := by
  rw [create_pull_request_ok_unfold env c rn t b hd ba l tok pr hg hr hp]
  by_cases hl : l.isEmpty
  · have hres : resolvedLabels c l = [] := by
      rw [List.isEmpty_iff] at hl
      simp [hl, resolvedLabels]
    refine ⟨?_, fun hne => absurd hres hne, fun _ => ?_⟩ <;>
      simp [hl, createPullCalls, addLabelCalls, ApiCall.isCreatePull, ApiCall.isAddLabels]
  · by_cases hres : (resolvedLabels c l).isEmpty
    · rw [List.isEmpty_iff] at hres
      refine ⟨?_, fun hne => absurd hres hne, fun _ => ?_⟩ <;>
        simp [hl, hres, createPullCalls, addLabelCalls, ApiCall.isCreatePull,
          ApiCall.isAddLabels, List.filter_append, no_create_pull_in_get_label_calls,
          no_add_in_get_label_calls]
    · have hres' : ¬resolvedLabels c l = [] := by
        simpa [List.isEmpty_iff] using hres
      cases ha : c.add_to_labels (resolvedLabels c l) with
      | error e =>
        refine ⟨?_, fun _ => ?_, fun h => absurd h hres'⟩ <;>
          simp [hl, hres, createPullCalls, addLabelCalls, ApiCall.isCreatePull,
            ApiCall.isAddLabels, List.filter_append, no_create_pull_in_get_label_calls,
            no_add_in_get_label_calls]
      | ok u =>
        refine ⟨?_, fun _ => ?_, fun h => absurd h hres'⟩ <;>
          simp [hl, hres, createPullCalls, addLabelCalls, ApiCall.isCreatePull,
            ApiCall.isAddLabels, List.filter_append, no_create_pull_in_get_label_calls,
            no_add_in_get_label_calls]

theorem create_pull_request_call_shape_witness :
    createPullCalls (create_pull_request envWithToken okClient "o/r" "T" "B" "H" "S"
        (some ["bug"])).calls = [ApiCall.create_pull "T" "B" "H" "S"] ∧
    addLabelCalls (create_pull_request envWithToken okClient "o/r" "T" "B" "H" "S"
        (some ["bug"])).calls = [ApiCall.add_to_labels ["bug"]] := by
  have h := create_pull_request_call_shape envWithToken okClient "o/r" "T" "B" "H" "S"
    ["bug"] "tok" ⟨2, "https://example.com/pr/2"⟩ rfl rfl rfl
  exact ⟨h.1, h.2.1 (by decide)⟩

/-- C3: when some label names fail to resolve (and the other remote calls
succeed), PR creation still succeeds with the success string, each
unresolvable label is skipped with exactly its logged warning, in input
order, and the single batch attach call contains exactly the successfully
resolved subset, in input order. -/
theorem label_resolution_failure_nonfatal (env : PyEnv) (c : Client)
    (rn t b hd ba : String) (l : List String) (tok : String) (pr : PRInfo)
    (hg : get_github_client env = Except.ok tok)
    (hr : c.get_repo rn = Except.ok ())
    (hp : c.create_pull t b hd ba = Except.ok pr)
    (hadd : c.add_to_labels (resolvedLabels c l) = Except.ok ())
    (hfail : ∃ n ∈ l, ∃ e, c.get_label n = Except.error e)
    (hres : resolvedLabels c l ≠ []) :
    (create_pull_request env c rn t b hd ba (some l)).output = successMsg pr ∧
    (create_pull_request env c rn t b hd ba (some l)).warnings = failedWarnings c l ∧
    addLabelCalls (create_pull_request env c rn t b hd ba (some l)).calls
      = [ApiCall.add_to_labels (resolvedLabels c l)] := by
  have hl : ¬l.isEmpty := by
    obtain ⟨n, hn, _⟩ := hfail
    rw [List.isEmpty_iff]
    rintro rfl
    exact (List.not_mem_nil n) hn
  have hres' : ¬(resolvedLabels c l).isEmpty := by
    rw [List.isEmpty_iff]
    exact hres
  rw [create_pull_request_ok_unfold env c rn t b hd ba l tok pr hg hr hp]
  rw [if_neg (by simpa using hl), if_neg (by simpa using hres'), hadd]
  refine ⟨rfl, rfl, ?_⟩
  simp [addLabelCalls, List.filter_append, ApiCall.isAddLabels,
    no_add_in_get_label_calls]

theorem label_resolution_failure_nonfatal_witness :
    (create_pull_request envWithToken exampleClient "o/r" "T" "B" "H" "S"
        (some ["bug", "needs-review"])).output
      = successMsg ⟨5, "https://example.com/pr/5"⟩ ∧
    (create_pull_request envWithToken exampleClient "o/r" "T" "B" "H" "S"
        (some ["bug", "needs-review"])).warnings
      = failedWarnings exampleClient ["bug", "needs-review"] ∧
    addLabelCalls (create_pull_request envWithToken exampleClient "o/r" "T" "B" "H" "S"
        (some ["bug", "needs-review"])).calls
      = [ApiCall.add_to_labels (resolvedLabels exampleClient ["bug", "needs-review"])] :=
  label_resolution_failure_nonfatal envWithToken exampleClient "o/r" "T" "B" "H" "S"
    ["bug", "needs-review"] "tok" ⟨5, "https://example.com/pr/5"⟩ rfl rfl rfl rfl
    ⟨"needs-review", by decide, "Not Found", rfl⟩ (by decide)

theorem resolvedLabels_eq_nil_of_all_fail (c : Client) (l : List String)
    (h : ∀ n ∈ l, ∃ e, c.get_label n = Except.error e) :
    resolvedLabels c l = [] := by
  induction l with
  | nil => rfl
  | cons n rest ih =>
    obtain ⟨e, he⟩ := h n (List.mem_cons_self n rest)
    simp only [resolvedLabels, List.filterMap_cons, he]
    simpa [Except.toOption, resolvedLabels] using
      ih fun m hm => h m (List.mem_cons_of_mem n hm)

/-- C9: no add-labels call is ever issued unless some label resolves: with
`labels=None`, `labels=[]`, or a list on which every name fails to resolve,
no attach call at all is issued (no empty batch call) and the run still
returns the success string; `None` and `[]` give identical runs. -/
theorem no_attach_without_resolved_label (env : PyEnv) (c : Client)
    (rn t b hd ba : String) (tok : String) (pr : PRInfo)
    (hg : get_github_client env = Except.ok tok)
    (hr : c.get_repo rn = Except.ok ())
    (hp : c.create_pull t b hd ba = Except.ok pr) :
    create_pull_request env c rn t b hd ba none =
      create_pull_request env c rn t b hd ba (some []) ∧
    ((create_pull_request env c rn t b hd ba none).output = successMsg pr ∧
      addLabelCalls (create_pull_request env c rn t b hd ba none).calls = []) ∧
    (∀ l : List String, (∀ n ∈ l, ∃ e, c.get_label n = Except.error e) →
      (create_pull_request env c rn t b hd ba (some l)).output = successMsg pr ∧
      addLabelCalls (create_pull_request env c rn t b hd ba (some l)).calls = []) := by
  have base : ∀ l : List String, resolvedLabels c l = [] →
      (create_pull_request env c rn t b hd ba (some l)).output = successMsg pr ∧
      addLabelCalls (create_pull_request env c rn t b hd ba (some l)).calls = [] := by
    intro l hres
    rw [create_pull_request_ok_unfold env c rn t b hd ba l tok pr hg hr hp]
    by_cases hl : l.isEmpty
    · constructor <;> simp [hl, addLabelCalls, ApiCall.isAddLabels]
    · constructor <;>
        simp [hl, hres, addLabelCalls, ApiCall.isAddLabels, List.filter_append,
          no_add_in_get_label_calls]
  refine ⟨create_pull_request_labels_getD env c rn t b hd ba none, ?_, ?_⟩
  · rw [create_pull_request_labels_getD env c rn t b hd ba none]
    exact base [] rfl
  · intro l hfail
    exact base l (resolvedLabels_eq_nil_of_all_fail c l hfail)

theorem no_attach_without_resolved_label_witness :
    (create_pull_request envWithToken noLabelClient "o/r" "T" "B" "H" "S"
        (some ["missing", "also-missing"])).output
      = successMsg ⟨1, "https://example.com/pr/1"⟩ ∧
    addLabelCalls (create_pull_request envWithToken noLabelClient "o/r" "T" "B" "H" "S"
        (some ["missing", "also-missing"])).calls = [] :=
  (no_attach_without_resolved_label envWithToken noLabelClient "o/r" "T" "B" "H" "S"
      "tok" ⟨1, "https://example.com/pr/1"⟩ rfl rfl rfl).2.2
    ["missing", "also-missing"] fun _ _ => ⟨"not found", rfl⟩

/-- A live-like fake GitHub: its state is the list of `(head, base)` pairs
for which an open PR already exists. -/
structure FakeGitHub where
  openPRs : List (String × String)
deriving DecidableEq, Repr

/-- The rejection message the fake returns for a duplicate PR. -/
def dupErrorMsg : String :=
  "A pull request already exists for these branches"

/-- The client behaviour of the fake in a given state: creating a PR whose
`(head, base)` pair already exists is rejected; everything else succeeds. -/
def FakeGitHub.client (st : FakeGitHub) : Client where
  get_repo := fun _ => Except.ok ()
  create_pull := fun _ _ h b =>
    if (h, b) ∈ st.openPRs then Except.error dupErrorMsg
    else Except.ok ⟨9, "https://example.com/pr/9"⟩
  get_label := fun n => Except.ok n
  add_to_labels := fun _ => Except.ok ()

/-- The fake's state after a successful `create_pull` on `(h, b)`. -/
def FakeGitHub.afterCreate (st : FakeGitHub) (h b : String) : FakeGitHub :=
  ⟨(h, b) :: st.openPRs⟩

/-- C8: calling `create_pull_request` twice with identical parameters
against the live-like fake — whose second `create_pull` on the same
branches fails with an "already exists" rejection — yields the success
string on the first call and the formatted error string (a returned value,
not an exception) on the second: idempotence is not guaranteed. -/
theorem repeated_create_not_idempotent :
    (create_pull_request envWithToken (FakeGitHub.client ⟨[]⟩)
        "o/r" "T" "B" "H" "S" (some [])).output
      = successMsg ⟨9, "https://example.com/pr/9"⟩ ∧
    (create_pull_request envWithToken
        (FakeGitHub.client (FakeGitHub.afterCreate ⟨[]⟩ "H" "S"))
        "o/r" "T" "B" "H" "S" (some [])).output
      = errorMsg dupErrorMsg := by
  refine ⟨rfl, ?_⟩
  rfl

/-- `main`'s hard-coded repository name. -/
def issue19_repo_name : String := "bcolemanau/agent-chat-ui"

/-- `main`'s hard-coded head branch. -/
def issue19_head : String := "feature/issue-19-hydration-preview-view"

/-- `main`'s hard-coded base branch. -/
def issue19_base : String := "staging"

/-- `main`'s hard-coded PR title. -/
def issue19_title : String :=
  "feat(issue-19): Concept brief and hydration diff views with horizontal layout"

/-- `main`'s hard-coded PR body (the triple-quoted string). -/
def issue19_body : String := String.intercalate "\n" [
  "## Issue #19: Concept Brief and Hydration UI Components",
  "",
  "This PR adds UI components for Issue #19 concept agent work.",
  "",
  "### Features",
  "- **Concept Brief Diff View**: Server-backed diff view for comparing concept options",
  "- **Hydration Diff View**: Diff view component for hydration proposals",
  "- **Unified Approvals System**: Centralized approval/reject/edit UI for all proposal types",
  "- **Horizontal Layout**: Chat panel on right with 25% min, 75% max constraints",
  "- **Supporting Components**: Progress, tabs, and diff renderer utilities",
  "",
  "### Layout Improvements",
  "- Converted chat panel from vertical (bottom) to horizontal (right) layout",
  "- Percentage-based sizing (default 40% width)",
  "- 25% minimum and 75% maximum constraints for both panels",
  "- Resizable divider with proper constraints",
  "",
  "### Components Added",
  "",
  "**New Files:**",
  "- `src/app/workbench/concept-brief/page.tsx` - Concept brief workbench page",
  "- `src/components/workbench/concept-brief-diff-view.tsx` - Concept brief option comparison",
  "- `src/app/workbench/hydration/page.tsx` - Hydration workbench page",
  "- `src/components/workbench/hydration-diff-view.tsx` - Hydration proposal diff view",
  "- `src/app/workbench/decisions/page.tsx` - Unified decisions page",
  "- `src/components/workbench/approval-card.tsx` - Approval/reject/edit card component",
  "- `src/components/workbench/hooks/use-unified-approvals.ts` - Unified approvals hook",
  "- `src/components/workbench/hooks/use-approval-count.ts` - Approval count hook",
  "- `src/lib/diff-types.ts` - Standardized diff interface types",
  "- `src/components/workbench/__tests__/hydration-diff-view.test.tsx` - Tests",
  "- `src/components/workbench/diff-renderers/` - Diff rendering utilities",
  "- `src/components/ui/progress.tsx` - Progress UI component",
  "- `src/components/ui/tabs.tsx` - Tabs UI component",
  "- `jest.config.cjs` - Testing configuration",
  "",
  "**Modified Files:**",
  "- `src/components/workbench/shell.tsx` - Horizontal layout with percentage-based sizing",
  "",
  "### Related",
  "- Issue #19: Concept agent implementation",
  "- Part of Issue #19 Phase 1: Template-Driven Agent Foundation"]

/-- `main`'s hard-coded label list (empty). -/
def issue19_labels : List String := []

/-- The run of `main`: `create_pull_request` applied to the script's
constants, in a given environment against a given client behaviour. -/
def main_result (env : PyEnv) (c : Client) : RunResult :=
  create_pull_request env c issue19_repo_name issue19_title issue19_body
    issue19_head issue19_base (some issue19_labels)

/-- Everything a run of the script prints to standard output: the warning
lines printed during `create_pull_request`, then `print(result)`. -/
def main_stdout (env : PyEnv) (c : Client) : List String :=
  (main_result env c).warnings ++ [(main_result env c).output]

/-- C7: for every run, exactly one line is printed to standard output, and
it is either `Successfully created PR #<number>: <url>` (with the created
PR's number and web URL) or `Error creating GitHub PR: <message>`. -/
theorem main_prints_one_line (env : PyEnv) (c : Client) :
    main_stdout env c = [(main_result env c).output] ∧
    ((∃ pr, (main_result env c).output = successMsg pr) ∨
      (∃ e, (main_result env c).output = errorMsg e)) := by
  have key : (main_result env c).warnings = [] ∧
      ((∃ pr, (main_result env c).output = successMsg pr) ∨
        (∃ e, (main_result env c).output = errorMsg e)) := by
    unfold main_result
    cases hg : get_github_client env with
    | error e =>
      rw [create_pull_request_cred_error env c issue19_repo_name issue19_title
        issue19_body issue19_head issue19_base (some issue19_labels) e hg]
      exact ⟨rfl, Or.inr ⟨e, rfl⟩⟩
    | ok tok =>
      cases hr : c.get_repo issue19_repo_name with
      | error e =>
        rw [create_pull_request_repo_error env c issue19_repo_name issue19_title
          issue19_body issue19_head issue19_base (some issue19_labels) tok e hg hr]
        exact ⟨rfl, Or.inr ⟨e, rfl⟩⟩
      | ok u =>
        cases u
        cases hp : c.create_pull issue19_title issue19_body issue19_head issue19_base with
        | error e =>
          rw [create_pull_request_create_error env c issue19_repo_name issue19_title
            issue19_body issue19_head issue19_base (some issue19_labels) tok e hg hr hp]
          exact ⟨rfl, Or.inr ⟨e, rfl⟩⟩
        | ok pr =>
          rw [create_pull_request_ok_unfold env c issue19_repo_name issue19_title
            issue19_body issue19_head issue19_base issue19_labels tok pr hg hr hp]
          exact ⟨rfl, Or.inl ⟨pr, rfl⟩⟩
  refine ⟨?_, key.2⟩
  unfold main_stdout
  rw [key.1]
  rfl
